import Mathlib

/-! Verification development for the ducker resource-page framework.

The two source files under scrutiny are `src/pages/containers.rs` and
`src/pages/images.rs`.  Their pure state (snapshot list, selection index,
confirmation-modal state) is embedded as Lean structures; the asynchronous
Docker backend is embedded as an explicit environment recording the result
of each backend call, and every page operation is a pure function from the
page state (plus the environment) to a result record that carries the new
state, the number of `list` calls made, the mutating backend calls issued
(in order), and the Rust `Result` value.  Rust panics (an `unwrap` on an
`Err`, an arithmetic underflow on `usize`) are embedded as error results.

The confirmation-modal component (`components/confirmation_modal.rs`) is not
part of the given sources; it is modelled from the spec where marked.
-/

namespace Ducker

/-- Decidable equality for Rust `Result` values embedded as `Except`. -/
instance {ε α : Type} [DecidableEq ε] [DecidableEq α] :
    DecidableEq (Except ε α) := fun x y =>
  match x, y with
  | Except.ok a, Except.ok b =>
      if h : a = b then Decidable.isTrue (by rw [h])
      else Decidable.isFalse (fun he => by cases he; exact h rfl)
  | Except.ok _, Except.error _ => Decidable.isFalse (fun he => by cases he)
  | Except.error _, Except.ok _ => Decidable.isFalse (fun he => by cases he)
  | Except.error e, Except.error f =>
      if h : e = f then Decidable.isTrue (by rw [h])
      else Decidable.isFalse (fun he => by cases he; exact h rfl)

/-- Keyboard events (`events::Key`), as used by the two pages. -/
inductive Key where
  | Up
  | Down
  | Char (c : Char)
  | Ctrl (c : Char)
deriving DecidableEq, Repr

/-- Embeds `events::message::MessageResponse`: whether a page consumed an event. -/
inductive MessageResponse where
  | Consumed
  | NotConsumed
deriving DecidableEq, Repr

/-- The record type of the containers snapshot (`bollard` `ContainerSummary`);
only the fields the page logic reads are kept, with their `Option`-ness. -/
structure ContainerSummary where
  id : Option String
  image : Option String
  command : Option String
  state : Option String
  status : Option String
deriving DecidableEq, Repr

/-- The record type of the images snapshot (`docker::image::DockerImage`). -/
structure DockerImage where
  id : String
  name : String
  tag : String
  created : String
  size : String
deriving DecidableEq, Repr

/-- Embeds the `ratatui` `TableState`: the page only uses its optional selected index. -/
structure TableState where
  selected : Option Nat
deriving DecidableEq, Repr

/-- Embeds `TableState::select`. -/
def TableState.select (t : TableState) (idx : Option Nat) : TableState :=
  { t with selected := idx }

/-- Modelled from the spec: the binary decision-option set of the generic
confirmation dialog (`BooleanOptions` of `components/confirmation_modal.rs`,
which is not under the given sources). -/
inductive BooleanOptions where
  | Yes
  | No
deriving DecidableEq, Repr

/-- Modelled from the spec: the dialog state machine variant used by the
containers page (`ModalState` of `components/confirmation_modal.rs`, not
under the given sources).  `Invisible` is the spec's `Closed`, `Waiting`
its `Open(prompt)`, and `Complete` its `Resolved(decision)`; these are the
constructor names the containers page matches on. -/
inductive ModalState where
  | Invisible
  | Waiting (message : String)
  | Complete (res : BooleanOptions)
deriving DecidableEq, Repr

/-- Modelled from the spec: the confirmation dialog owned by the containers
page (`ConfirmationModal<BooleanOptions>`, not under the given sources). -/
structure ConfirmationModal where
  title : String
  state : ModalState
deriving DecidableEq, Repr

/-- Modelled from the spec: a fresh dialog starts closed. -/
def ConfirmationModal.new (title : String) : ConfirmationModal :=
  ⟨title, ModalState.Invisible⟩

/-- Modelled from the spec: `open(prompt)` — displays the prompt and routes
further input to the dialog. -/
def ConfirmationModal.initialise (m : ConfirmationModal) (message : String) :
    ConfirmationModal :=
  { m with state := ModalState.Waiting message }

/-- Modelled from the spec: draining the dialog back to closed. -/
def ConfirmationModal.reset (m : ConfirmationModal) : ConfirmationModal :=
  { m with state := ModalState.Invisible }

/-- Modelled from the spec: while the prompt is displayed the dialog
recognizes an affirmative key and a negative key, moving to the resolved
state and consuming the event; any other key is not consumed and causes no
transition. -/
def ConfirmationModal.update (m : ConfirmationModal) (k : Key) :
    ConfirmationModal × MessageResponse :=
  match m.state with
  | ModalState.Waiting _ =>
      if k = Key.Char 'y' then
        ({ m with state := ModalState.Complete BooleanOptions.Yes },
          MessageResponse.Consumed)
      else if k = Key.Char 'n' then
        ({ m with state := ModalState.Complete BooleanOptions.No },
          MessageResponse.Consumed)
      else (m, MessageResponse.NotConsumed)
  | _ => (m, MessageResponse.NotConsumed)

/-- A mutating Docker backend call, identified by its captured argument. -/
inductive BackendCall where
  | startContainer (id : String)
  | stopContainer (id : String)
  | removeContainer (id : String)
  | removeImage (id : String)
deriving DecidableEq, Repr

/-- The Docker daemon as seen by the containers page: the outcome of the
`k`-th `list_containers` call of the current event, and the outcome of each
mutating call, keyed by the target identifier. -/
structure DockerEnv where
  listResults : Nat → Except String (List ContainerSummary)
  removeResult : String → Except String Unit
  startResult : String → Except String Unit
  stopResult : String → Except String Unit

/-- The Docker daemon as seen by the images page. -/
structure ImagesEnv where
  listResults : Nat → Except String (List DockerImage)

/-- The state of the containers page (`Containers`). -/
structure Containers where
  name : String
  visible : Bool
  containers : List ContainerSummary
  list_state : TableState
  delete_modal : ConfirmationModal
deriving DecidableEq, Repr

/-- Modelled from the spec: the per-page modal type tag of the images page
(`ModalTypes` is declared in `images.rs`; its interpretation lives in the
missing modal component). -/
inductive ModalTypes where
  | DeleteImage
  | ForceDeleteImage
deriving DecidableEq, Repr

/-- Modelled from the spec: the dialog state variant the images page matches
on (`Closed` and `Open(prompt)` of the missing modal component). -/
inductive ImagesModalState where
  | Closed
  | Open (message : String)
deriving DecidableEq, Repr

/-- Modelled from the spec: the images page's dialog
(`ConfirmationModal<bool, ModalTypes>`, not under the given sources); the
pending action is the `DeleteImage` callback, which captures the Docker
handle and a clone of the target image at construction time — embedded as
the captured image. -/
structure ImagesConfirmationModal where
  title : String
  modalType : ModalTypes
  state : ImagesModalState
  callback : Option DockerImage
deriving DecidableEq, Repr

/-- Modelled from the spec: a fresh images dialog starts closed with no
pending action. -/
def ImagesConfirmationModal.new (title : String) (t : ModalTypes) :
    ImagesConfirmationModal :=
  ⟨title, t, ImagesModalState.Closed, none⟩

/-- Modelled from the spec: opening the images dialog stores the prompt and
the pending-action callback with its captured image. -/
def ImagesConfirmationModal.initialise (m : ImagesConfirmationModal)
    (message : String) (cb : DockerImage) : ImagesConfirmationModal :=
  { m with state := ImagesModalState.Open message, callback := some cb }

/-- Modelled from the spec: on the affirmative key the drained pending
action runs the captured backend call against its captured identifier and
the dialog closes; on the negative key the action is discarded and the
dialog closes; any other key is not consumed. -/
def ImagesConfirmationModal.update (m : ImagesConfirmationModal) (k : Key) :
    ImagesConfirmationModal × MessageResponse × List BackendCall :=
  match m.state with
  | ImagesModalState.Open _ =>
      if k = Key.Char 'y' then
        ({ m with state := ImagesModalState.Closed },
          MessageResponse.Consumed,
          match m.callback with
          | some img => [BackendCall.removeImage img.id]
          | none => [])
      else if k = Key.Char 'n' then
        ({ m with state := ImagesModalState.Closed },
          MessageResponse.Consumed, [])
      else (m, MessageResponse.NotConsumed, [])
  | _ => (m, MessageResponse.NotConsumed, [])

/-- The state of the images page (`Images`). -/
structure Images where
  name : String
  visible : Bool
  images : List DockerImage
  list_state : TableState
  modal : Option ImagesConfirmationModal
deriving DecidableEq, Repr

/-- Rust `usize` subtraction with debug-build semantics: an
underflow panics, embedded as `none`. -/
def usizeSub (a b : Nat) : Option Nat :=
  if b ≤ a then some (a - b) else none

/-- Result of `Containers::refresh`: the new page state, the number of
`list_containers` calls consumed, and the Rust `Result`. -/
structure RefreshResult where
  state : Containers
  listCalls : Nat
  result : Except String Unit
deriving DecidableEq, Repr

/-- Embeds `Containers::refresh`: replace the snapshot with the backend's list; on
a fetch error the `?` operator returns before the assignment, so the
snapshot (and the selection index) is left untouched. -/
def Containers.refresh (env : DockerEnv) (k : Nat) (s : Containers) :
    RefreshResult :=
  match env.listResults k with
  | Except.ok l => ⟨{ s with containers := l }, k + 1, Except.ok ()⟩
  | Except.error e =>
      ⟨s, k + 1, Except.error ("unable to retrieve list of containers: " ++ e)⟩

/-- Embeds `Containers::increment_list`. -/
def Containers.increment_list (s : Containers) : Containers :=
  match s.list_state.selected with
  | none => { s with list_state := s.list_state.select (some 0) }
  | some current_idx =>
      if s.containers.length ≠ 0 ∧ current_idx < s.containers.length - 1 then
        { s with list_state := s.list_state.select (some (current_idx + 1)) }
      else s

/-- Embeds `Containers::decrement_list`. -/
def Containers.decrement_list (s : Containers) : Containers :=
  match s.list_state.selected with
  | none => { s with list_state := s.list_state.select (some 0) }
  | some current_idx =>
      if current_idx > 0 then
        { s with list_state := s.list_state.select (some (current_idx - 1)) }
      else s

/-- Embeds `Containers::get_container`: the record at the selected index, or the
`bail!("no container id found")` error (embedded as `none`) when there is
no selection or the index is out of bounds.  It takes `&self` only. -/
def Containers.get_container (s : Containers) : Option ContainerSummary :=
  match s.list_state.selected with
  | some container_idx => s.containers.get? container_idx
  | none => none

/-- Result of a mutating container action (`delete/start/stop/attach`). -/
structure ActionResult where
  state : Containers
  listCalls : Nat
  calls : List BackendCall
  result : Except String (Option Unit)
deriving DecidableEq, Repr

/-- Embeds `Containers::delete_container`: re-resolves the current selection, and
when it has an id calls `remove_container` (whose failure is an `unwrap`
panic), then refreshes. -/
def Containers.delete_container (env : DockerEnv) (k : Nat) (s : Containers) :
    ActionResult :=
  match s.get_container with
  | some container =>
      match container.id with
      | some container_id =>
          match env.removeResult container_id with
          | Except.ok _ =>
              let r := s.refresh env k
              ⟨r.state, r.listCalls, [BackendCall.removeContainer container_id],
                match r.result with
                | Except.ok _ => Except.ok (some ())
                | Except.error e => Except.error e⟩
          | Except.error e =>
              ⟨s, k, [BackendCall.removeContainer container_id],
                Except.error ("panicked: unwrap on an Err value: " ++ e)⟩
      | none =>
          let r := s.refresh env k
          ⟨r.state, r.listCalls, [],
            match r.result with
            | Except.ok _ => Except.ok (some ())
            | Except.error e => Except.error e⟩
  | none => ⟨s, k, [], Except.ok none⟩

/-- Embeds `Containers::start_container`. -/
def Containers.start_container (env : DockerEnv) (k : Nat) (s : Containers) :
    ActionResult :=
  match s.get_container with
  | some container =>
      match container.id with
      | some container_id =>
          match env.startResult container_id with
          | Except.ok _ =>
              let r := s.refresh env k
              ⟨r.state, r.listCalls, [BackendCall.startContainer container_id],
                match r.result with
                | Except.ok _ => Except.ok (some ())
                | Except.error e => Except.error e⟩
          | Except.error e =>
              ⟨s, k, [BackendCall.startContainer container_id],
                Except.error ("failed to start container: " ++ e)⟩
      | none =>
          let r := s.refresh env k
          ⟨r.state, r.listCalls, [],
            match r.result with
            | Except.ok _ => Except.ok (some ())
            | Except.error e => Except.error e⟩
  | none => ⟨s, k, [], Except.ok none⟩

/-- Embeds `Containers::stop_container`: calls `docker.stop_container` on the
selected container's id (its error context string is, verbatim from the
source, "failed to start container"), then refreshes. -/
def Containers.stop_container (env : DockerEnv) (k : Nat) (s : Containers) :
    ActionResult :=
  match s.get_container with
  | some container =>
      match container.id with
      | some container_id =>
          match env.stopResult container_id with
          | Except.ok _ =>
              let r := s.refresh env k
              ⟨r.state, r.listCalls, [BackendCall.stopContainer container_id],
                match r.result with
                | Except.ok _ => Except.ok (some ())
                | Except.error e => Except.error e⟩
          | Except.error e =>
              ⟨s, k, [BackendCall.stopContainer container_id],
                Except.error ("failed to start container: " ++ e)⟩
      | none =>
          let r := s.refresh env k
          ⟨r.state, r.listCalls, [],
            match r.result with
            | Except.ok _ => Except.ok (some ())
            | Except.error e => Except.error e⟩
  | none => ⟨s, k, [], Except.ok none⟩

/-- Embeds `Containers::attach_container`: its body invokes `docker.stop_container`
(not an attach endpoint) on the selected container's id, with the same
error context string, then refreshes. -/
def Containers.attach_container (env : DockerEnv) (k : Nat) (s : Containers) :
    ActionResult :=
  match s.get_container with
  | some container =>
      match container.id with
      | some container_id =>
          match env.stopResult container_id with
          | Except.ok _ =>
              let r := s.refresh env k
              ⟨r.state, r.listCalls, [BackendCall.stopContainer container_id],
                match r.result with
                | Except.ok _ => Except.ok (some ())
                | Except.error e => Except.error e⟩
          | Except.error e =>
              ⟨s, k, [BackendCall.stopContainer container_id],
                Except.error ("failed to start container: " ++ e)⟩
      | none =>
          let r := s.refresh env k
          ⟨r.state, r.listCalls, [],
            match r.result with
            | Except.ok _ => Except.ok (some ())
            | Except.error e => Except.error e⟩
  | none => ⟨s, k, [], Except.ok none⟩

/-- Result of one `Containers::update` event. -/
structure UpdateResult where
  state : Containers
  listCalls : Nat
  calls : List BackendCall
  response : Except String MessageResponse
deriving DecidableEq, Repr

/-- Embeds `Containers::update`: the page dispatcher for one keyboard event.
An invisible page consumes nothing; otherwise the page refreshes first and
then routes the key according to the modal state. -/
def Containers.update (env : DockerEnv) (s : Containers) (message : Key) :
    UpdateResult :=
  if !s.visible then ⟨s, 0, [], Except.ok MessageResponse.NotConsumed⟩
  else
    let r := s.refresh env 0
    match r.result with
    | Except.error e => ⟨r.state, r.listCalls, [], Except.error e⟩
    | Except.ok _ =>
        let s := r.state
        let k := r.listCalls
        match s.delete_modal.state with
        | ModalState.Invisible =>
            match message with
            | Key.Up | Key.Char 'k' =>
                ⟨s.decrement_list, k, [], Except.ok MessageResponse.Consumed⟩
            | Key.Down | Key.Char 'j' =>
                ⟨s.increment_list, k, [], Except.ok MessageResponse.Consumed⟩
            | Key.Char 'd' =>
                match s.get_container with
                | some container =>
                    let container_id := container.id.getD ""
                    let image := container.image.getD ""
                    let msg := "Are you sure you wish to delete container " ++
                      container_id ++ ", running " ++ image ++ "?"
                    ⟨{ s with delete_modal := s.delete_modal.initialise msg },
                      k, [], Except.ok MessageResponse.Consumed⟩
                | none => ⟨s, k, [], Except.ok MessageResponse.NotConsumed⟩
            | Key.Char 'r' =>
                let a := s.start_container env k
                match a.result with
                | Except.ok _ =>
                    ⟨a.state, a.listCalls, a.calls,
                      Except.ok MessageResponse.Consumed⟩
                | Except.error e =>
                    ⟨a.state, a.listCalls, a.calls,
                      Except.error ("could not start container: " ++ e)⟩
            | Key.Char 's' =>
                let a := s.stop_container env k
                match a.result with
                | Except.ok _ =>
                    ⟨a.state, a.listCalls, a.calls,
                      Except.ok MessageResponse.Consumed⟩
                | Except.error e =>
                    ⟨a.state, a.listCalls, a.calls,
                      Except.error ("could not stop container: " ++ e)⟩
            | Key.Char 'a' =>
                let a := s.attach_container env k
                match a.result with
                | Except.ok _ =>
                    ⟨a.state, a.listCalls, a.calls,
                      Except.ok MessageResponse.Consumed⟩
                | Except.error e =>
                    ⟨a.state, a.listCalls, a.calls,
                      Except.error ("could not attach to container: " ++ e)⟩
            | Key.Char 'g' =>
                ⟨{ s with list_state := s.list_state.select (some 0) },
                  k, [], Except.ok MessageResponse.Consumed⟩
            | Key.Char 'G' =>
                match usizeSub s.containers.length 1 with
                | some n =>
                    ⟨{ s with list_state := s.list_state.select (some n) },
                      k, [], Except.ok MessageResponse.Consumed⟩
                | none =>
                    ⟨s, k, [],
                      Except.error "panicked: attempt to subtract with overflow"⟩
            | _ => ⟨s, k, [], Except.ok MessageResponse.NotConsumed⟩
        | ModalState.Waiting _ =>
            let mu := s.delete_modal.update message
            let s1 := { s with delete_modal := mu.1 }
            let update_res := mu.2
            if update_res = MessageResponse.Consumed then
              match s1.delete_modal.state with
              | ModalState.Complete res =>
                  match res with
                  | BooleanOptions.Yes =>
                      let a := s1.delete_container env k
                      match a.result with
                      | Except.ok _ =>
                          ⟨{ a.state with
                              delete_modal := a.state.delete_modal.reset },
                            a.listCalls, a.calls, Except.ok update_res⟩
                      | Except.error e =>
                          ⟨a.state, a.listCalls, a.calls,
                            Except.error
                              ("could not delete current container: " ++ e)⟩
                  | BooleanOptions.No =>
                      ⟨{ s1 with delete_modal := s1.delete_modal.reset },
                        k, [], Except.ok update_res⟩
              | _ => ⟨s1, k, [], Except.ok update_res⟩
            else ⟨s1, k, [], Except.ok update_res⟩
        | ModalState.Complete _ =>
            ⟨{ s with delete_modal := s.delete_modal.reset },
              k, [], Except.ok MessageResponse.NotConsumed⟩

/-- Result of `Images::refresh`. -/
structure ImagesRefreshResult where
  state : Images
  listCalls : Nat
  result : Except String Unit
deriving DecidableEq, Repr

/-- Embeds `Images::refresh`: replace the snapshot with the backend's image list
(the locally built `filters` map is never used); on error the snapshot and
index are untouched. -/
def Images.refresh (env : ImagesEnv) (k : Nat) (s : Images) :
    ImagesRefreshResult :=
  match env.listResults k with
  | Except.ok l => ⟨{ s with images := l }, k + 1, Except.ok ()⟩
  | Except.error e =>
      ⟨s, k + 1, Except.error ("unable to retrieve list of images: " ++ e)⟩

/-- Embeds `Images::increment_list`. -/
def Images.increment_list (s : Images) : Images :=
  match s.list_state.selected with
  | none => { s with list_state := s.list_state.select (some 0) }
  | some current_idx =>
      if ¬s.images.isEmpty ∧ current_idx < s.images.length - 1 then
        { s with list_state := s.list_state.select (some (current_idx + 1)) }
      else s

/-- Embeds `Images::decrement_list`. -/
def Images.decrement_list (s : Images) : Images :=
  match s.list_state.selected with
  | none => { s with list_state := s.list_state.select (some 0) }
  | some current_idx =>
      if current_idx > 0 then
        { s with list_state := s.list_state.select (some (current_idx - 1)) }
      else s

/-- Embeds `Images::get_image`: the image at the selected index, or the bail error
(embedded as `none`); takes `&self` only. -/
def Images.get_image (s : Images) : Option DockerImage :=
  match s.list_state.selected with
  | some image_idx => s.images.get? image_idx
  | none => none

/-- Embeds `Images::delete_image`: captures a clone of the currently selected
image inside a `DeleteImage` callback, builds a fresh modal and opens it
with that callback; errors with `bail!("Ahhh")` when nothing resolves. -/
def Images.delete_image (s : Images) : Except String Images :=
  match s.get_image with
  | some image =>
      let modal :=
        (ImagesConfirmationModal.new "Delete" ModalTypes.DeleteImage).initialise
          ("Are you sure you wish to delete container " ++ image.name ++ ":" ++
            image.tag ++ ")?") image
      Except.ok { s with modal := some modal }
  | none => Except.error "Ahhh"

/-- Result of one `Images::update` event. -/
structure ImagesUpdateResult where
  state : Images
  listCalls : Nat
  calls : List BackendCall
  response : Except String MessageResponse
deriving DecidableEq, Repr

/-- The key-match tail of `Images::update` (reached when no modal is open). -/
def Images.updateKeys (s : Images) (k : Nat) (message : Key) :
    ImagesUpdateResult :=
  match message with
  | Key.Up | Key.Char 'k' =>
      ⟨s.decrement_list, k, [], Except.ok MessageResponse.Consumed⟩
  | Key.Down | Key.Char 'j' =>
      ⟨s.increment_list, k, [], Except.ok MessageResponse.Consumed⟩
  | Key.Ctrl 'd' =>
      match s.delete_image with
      | Except.ok s2 => ⟨s2, k, [], Except.ok MessageResponse.Consumed⟩
      | Except.error _ => ⟨s, k, [], Except.ok MessageResponse.NotConsumed⟩
  | _ => ⟨s, k, [], Except.ok MessageResponse.NotConsumed⟩

/-- Embeds `Images::update`: invisible pages consume nothing; otherwise refresh,
then route to the open modal if there is one, else to the key match. -/
def Images.update (env : ImagesEnv) (s : Images) (message : Key) :
    ImagesUpdateResult :=
  if !s.visible then ⟨s, 0, [], Except.ok MessageResponse.NotConsumed⟩
  else
    let r := s.refresh env 0
    match r.result with
    | Except.error e => ⟨r.state, r.listCalls, [], Except.error e⟩
    | Except.ok _ =>
        let s := r.state
        let k := r.listCalls
        match s.modal with
        | some m =>
            match m.state with
            | ImagesModalState.Open _ =>
                let mu := m.update message
                ⟨{ s with modal := some mu.1 }, k, mu.2.2, Except.ok mu.2.1⟩
            | _ => Images.updateKeys s k message
        | none => Images.updateKeys s k message

/-! Concrete fixtures used by witnesses and counterexamples. -/

/-- A concrete container record. -/
def cA : ContainerSummary := ⟨some "c1", some "img1", none, none, none⟩

/-- A concrete container record. -/
def cB : ContainerSummary := ⟨some "c2", some "img2", none, none, none⟩

/-- A concrete container record. -/
def cC : ContainerSummary := ⟨some "c3", some "img3", none, none, none⟩

/-- A backend that always returns the given container list and succeeds on
every mutating call. -/
def envConst (l : List ContainerSummary) : DockerEnv :=
  ⟨fun _ => Except.ok l, fun _ => Except.ok (), fun _ => Except.ok (),
    fun _ => Except.ok ()⟩

/-- A backend whose container list call always fails. -/
def envListErr : DockerEnv :=
  ⟨fun _ => Except.error "boom", fun _ => Except.ok (), fun _ => Except.ok (),
    fun _ => Except.ok ()⟩

/-- A concrete image record. -/
def imgA : DockerImage := ⟨"i1", "nginx", "latest", "2024", "10MB"⟩

/-- An images backend that always returns the given list. -/
def imgEnvConst (l : List DockerImage) : ImagesEnv := ⟨fun _ => Except.ok l⟩

/-- An images backend whose list call always fails. -/
def imgEnvErr : ImagesEnv := ⟨fun _ => Except.error "boom"⟩

/-- A visible containers page with three containers and index 2. -/
def contState3 : Containers :=
  ⟨"Containers", true, [cA, cB, cC], ⟨some 2⟩, ConfirmationModal.new "Delete"⟩

/-- A visible containers page with an empty snapshot and no selection. -/
def contEmptyNone : Containers :=
  ⟨"Containers", true, [], ⟨none⟩, ConfirmationModal.new "Delete"⟩

/-- A visible containers page with two containers and index 0, modal closed. -/
def contStateD : Containers :=
  ⟨"Containers", true, [cA, cB], ⟨some 0⟩, ConfirmationModal.new "Delete"⟩

/-- A visible containers page with two containers, index 1, modal waiting. -/
def contStateW : Containers :=
  ⟨"Containers", true, [cA, cB], ⟨some 1⟩, ⟨"Delete", ModalState.Waiting "m"⟩⟩

/-- An invisible containers page. -/
def contInvisible : Containers :=
  ⟨"Containers", false, [cA], ⟨some 0⟩, ConfirmationModal.new "Delete"⟩

/-- A visible images page with one image and index 0, no modal. -/
def imgState1 : Images := ⟨"Images", true, [imgA], ⟨some 0⟩, none⟩

/-- A visible images page with an empty snapshot and no selection. -/
def imgEmptyNone : Images := ⟨"Images", true, [], ⟨none⟩, none⟩

/-- An invisible images page. -/
def imgInvisible : Images := ⟨"Images", false, [imgA], ⟨some 0⟩, none⟩

/-! General lemmas about the list-controller operations. -/

/-- The function `increment_list` only moves the selection; the snapshot is untouched. -/
theorem Containers.increment_list_containers (s : Containers) :
    s.increment_list.containers = s.containers := by
  rcases hsel : s.list_state.selected with _ | i <;>
    simp [Containers.increment_list, hsel]
  split <;> rfl

/-- The function `decrement_list` only moves the selection; the snapshot is untouched. -/
theorem Containers.decrement_list_containers (s : Containers) :
    s.decrement_list.containers = s.containers := by
  rcases hsel : s.list_state.selected with _ | i <;>
    simp [Containers.decrement_list, hsel]
  split <;> rfl

/-- The images page's `increment_list` leaves the snapshot untouched. -/
theorem Images.increment_list_images (s : Images) :
    s.increment_list.images = s.images := by
  rcases hsel : s.list_state.selected with _ | i <;>
    simp [Images.increment_list, hsel]
  split <;> rfl

/-- The images page's `decrement_list` leaves the snapshot untouched. -/
theorem Images.decrement_list_images (s : Images) :
    s.decrement_list.images = s.images := by
  rcases hsel : s.list_state.selected with _ | i <;>
    simp [Images.decrement_list, hsel]
  split <;> rfl

/-- One `move` call of the spec: `up` is `decrement_list`, `down` is
`increment_list`. -/
inductive MoveDir where
  | up
  | down
deriving DecidableEq, Repr

/-- Apply one `move` call to the containers page. -/
def Containers.applyMove (s : Containers) : MoveDir → Containers
  | MoveDir.up => s.decrement_list
  | MoveDir.down => s.increment_list

/-- Apply a sequence of `move` calls to the containers page. -/
def Containers.applyMoves (s : Containers) : List MoveDir → Containers
  | [] => s
  | d :: ds => (s.applyMove d).applyMoves ds

/-- Apply one `move` call to the images page. -/
def Images.applyMove (s : Images) : MoveDir → Images
  | MoveDir.up => s.decrement_list
  | MoveDir.down => s.increment_list

/-- Apply a sequence of `move` calls to the images page. -/
def Images.applyMoves (s : Images) : List MoveDir → Images
  | [] => s
  | d :: ds => (s.applyMove d).applyMoves ds

/-- A `move` call leaves the containers snapshot untouched. -/
theorem Containers.applyMove_containers (s : Containers) (d : MoveDir) :
    (s.applyMove d).containers = s.containers := by
  cases d
  · exact s.decrement_list_containers
  · exact s.increment_list_containers

/-- A `move` call leaves the images snapshot untouched. -/
theorem Images.applyMove_images (s : Images) (d : MoveDir) :
    (s.applyMove d).images = s.images := by
  cases d
  · exact s.decrement_list_images
  · exact s.increment_list_images

/-- On a containers page with no selection, any single `move` call selects
index 0 (regardless of whether the snapshot is empty). -/
theorem Containers.applyMove_none (s : Containers) (d : MoveDir)
    (hs : s.list_state.selected = none) :
    (s.applyMove d).list_state.selected = some 0 := by
  cases d <;>
    simp [Containers.applyMove, Containers.increment_list,
      Containers.decrement_list, hs, TableState.select]

/-- On an empty containers snapshot with index 0, a `move` call is the
identity. -/
theorem Containers.applyMove_empty_zero (s : Containers) (d : MoveDir)
    (hc : s.containers = []) (hs : s.list_state.selected = some 0) :
    s.applyMove d = s := by
  cases d <;>
    simp [Containers.applyMove, Containers.increment_list,
      Containers.decrement_list, hs, hc]

/-- On an empty containers snapshot with index 0, any `move` sequence is the
identity. -/
theorem Containers.applyMoves_empty_zero (s : Containers) (ds : List MoveDir)
    (hc : s.containers = []) (hs : s.list_state.selected = some 0) :
    s.applyMoves ds = s := by
  induction ds with
  | nil => rfl
  | cons d ds ih =>
      show (s.applyMove d).applyMoves ds = s
      rw [Containers.applyMove_empty_zero s d hc hs]
      exact ih

/-- On an images page with no selection, any single `move` call selects 0. -/
theorem Images.applyMove_noneSel (s : Images) (d : MoveDir)
    (hs : s.list_state.selected = none) :
    (s.applyMove d).list_state.selected = some 0 := by
  cases d <;>
    simp [Images.applyMove, Images.increment_list, Images.decrement_list, hs,
      TableState.select]

/-- On an empty images snapshot with index 0, a `move` call is the identity. -/
theorem Images.applyMove_emptyZero (s : Images) (d : MoveDir)
    (hc : s.images = []) (hs : s.list_state.selected = some 0) :
    s.applyMove d = s := by
  cases d <;>
    simp [Images.applyMove, Images.increment_list, Images.decrement_list,
      hs, hc]

/-- On an empty images snapshot with index 0, any `move` sequence is the
identity. -/
theorem Images.applyMoves_emptyZero (s : Images) (ds : List MoveDir)
    (hc : s.images = []) (hs : s.list_state.selected = some 0) :
    s.applyMoves ds = s := by
  induction ds with
  | nil => rfl
  | cons d ds ih =>
      show (s.applyMove d).applyMoves ds = s
      rw [Images.applyMove_emptyZero s d hc hs]
      exact ih

/-- One `increment_list` step on an in-bounds selection moves it to
`min (j + 1) (len - 1)`. -/
theorem Containers.increment_list_selected_min (s : Containers) (j : Nat)
    (hj : s.list_state.selected = some j) (hjn : j < s.containers.length) :
    s.increment_list.list_state.selected
      = some (min (j + 1) (s.containers.length - 1)) := by
  have hne : s.containers.length ≠ 0 := by omega
  by_cases h : j < s.containers.length - 1
  · have hmin : min (j + 1) (s.containers.length - 1) = j + 1 := by omega
    simp [Containers.increment_list, hj, hne, h, TableState.select, hmin]
  · have hmin : min (j + 1) (s.containers.length - 1) = j := by omega
    simp [Containers.increment_list, hj, hne, h, TableState.select, hmin]

/-- Iterating `increment_list` never changes the snapshot. -/
theorem Containers.iterate_increment_containers (s : Containers) (k : Nat) :
    ((Containers.increment_list)^[k] s).containers = s.containers := by
  induction k with
  | zero => rfl
  | succ k ih =>
      rw [Function.iterate_succ_apply', Containers.increment_list_containers]
      exact ih

/-- Iterated `increment_list` from an in-bounds selection `i` reaches
`min (i + k) (len - 1)` after `k` steps. -/
theorem Containers.iterate_increment_selected (s : Containers) (i : Nat)
    (hsel : s.list_state.selected = some i) (hi : i < s.containers.length) :
    ∀ k, ((Containers.increment_list)^[k] s).list_state.selected
      = some (min (i + k) (s.containers.length - 1)) := by
  intro k
  induction k with
  | zero =>
      have hmin : min i (s.containers.length - 1) = i := by omega
      simpa [hmin] using hsel
  | succ k ih =>
      rw [Function.iterate_succ_apply']
      have hc := Containers.iterate_increment_containers s k
      have hlt : min (i + k) (s.containers.length - 1)
          < ((Containers.increment_list)^[k] s).containers.length := by
        rw [hc]; omega
      have step := Containers.increment_list_selected_min
        ((Containers.increment_list)^[k] s) (min (i + k) (s.containers.length - 1))
        (by rw [ih]) hlt
      rw [step, hc]
      congr 1
      omega

/-- One `Images::increment_list` step on an in-bounds selection moves it to
`min (j + 1) (len - 1)`. -/
theorem Images.increment_selected_min (s : Images) (j : Nat)
    (hj : s.list_state.selected = some j) (hjn : j < s.images.length) :
    s.increment_list.list_state.selected
      = some (min (j + 1) (s.images.length - 1)) := by
  have hne : ¬s.images.isEmpty := by
    cases himg : s.images
    · rw [himg] at hjn; simp at hjn
    · simp [himg]
  by_cases h : j < s.images.length - 1
  · have hmin : min (j + 1) (s.images.length - 1) = j + 1 := by omega
    simp [Images.increment_list, hj, hne, h, TableState.select, hmin]
  · have hmin : min (j + 1) (s.images.length - 1) = j := by omega
    simp [Images.increment_list, hj, hne, h, TableState.select, hmin]

/-- Iterating `Images::increment_list` never changes the snapshot. -/
theorem Images.iterate_increment_images (s : Images) (k : Nat) :
    ((Images.increment_list)^[k] s).images = s.images := by
  induction k with
  | zero => rfl
  | succ k ih =>
      rw [Function.iterate_succ_apply', Images.increment_list_images]
      exact ih

/-- Iterated `Images::increment_list` from an in-bounds selection `i`
reaches `min (i + k) (len - 1)` after `k` steps. -/
theorem Images.iterate_incr_selected (s : Images) (i : Nat)
    (hsel : s.list_state.selected = some i) (hi : i < s.images.length) :
    ∀ k, ((Images.increment_list)^[k] s).list_state.selected
      = some (min (i + k) (s.images.length - 1)) := by
  intro k
  induction k with
  | zero =>
      have hmin : min i (s.images.length - 1) = i := by omega
      simpa [hmin] using hsel
  | succ k ih =>
      rw [Function.iterate_succ_apply']
      have hc := Images.iterate_increment_images s k
      have hlt : min (i + k) (s.images.length - 1)
          < ((Images.increment_list)^[k] s).images.length := by
        rw [hc]; omega
      have step := Images.increment_selected_min
        ((Images.increment_list)^[k] s) (min (i + k) (s.images.length - 1))
        (by rw [ih]) hlt
      rw [step, hc]
      congr 1
      omega

/-! The claims. -/

/-- Claim C1, counterexample: starting from a visible containers page with
three containers and selection index 2, a refresh whose backend fetch
returns a single-element list leaves the selection index at 2 — dangling
past the end of the new snapshot (2 is neither at most `1 - 1` nor cleared
to `none`), so refresh does not clamp or clear the index as claimed. -/
theorem c1_refresh_counterexample :
    contState3.containers.length = 3 ∧
    contState3.list_state.selected = some 2 ∧
    (Containers.refresh (envConst [cA]) 0 contState3).state.containers.length
      = 1 ∧
    (Containers.refresh (envConst [cA]) 0 contState3).state.list_state.selected
      = some 2 ∧
    ¬(2 ≤ 1 - 1) ∧
    (Containers.refresh (envConst [cA]) 0 contState3).state.list_state.selected
      ≠ none := by decide

/-- Claim C1, amended: a successful refresh replaces the snapshot with the
fetched list and leaves the selection index exactly as it was — even when
the new list is shorter or empty.  A dangling index is not clamped or
cleared by refresh; it is tolerated and handled at resolution time by
`get_container`. -/
theorem c1_refresh_keeps_index (env : DockerEnv) (k : Nat) (s : Containers)
    (l : List ContainerSummary) (h : env.listResults k = Except.ok l) :
    (s.refresh env k).state.containers = l ∧
    (s.refresh env k).state.list_state = s.list_state ∧
    (s.refresh env k).result = Except.ok () := by
  simp [Containers.refresh, h]

/-- Claim C1, witness for the amended theorem at a concrete shrinking
refresh. -/
theorem c1_refresh_keeps_index_witness :
    (envConst [cA]).listResults 0 = Except.ok [cA] ∧
    ((Containers.refresh (envConst [cA]) 0 contState3).state.containers = [cA] ∧
     (Containers.refresh (envConst [cA]) 0 contState3).state.list_state
       = contState3.list_state ∧
     (Containers.refresh (envConst [cA]) 0 contState3).result
       = Except.ok ()) :=
  ⟨rfl, c1_refresh_keeps_index (envConst [cA]) 0 contState3 [cA] rfl⟩

/-- Claim C3, counterexample: on a containers page with an empty snapshot
and no selection, one `move(+1)` (`increment_list`) sets the index to
`some 0` — it is not a no-op and the index does not remain `None`. -/
theorem c3_empty_move_counterexample :
    contEmptyNone.containers = [] ∧
    contEmptyNone.list_state.selected = none ∧
    (Containers.increment_list contEmptyNone).list_state.selected = some 0 := by
  decide

/-- Claim C3, amended: on an empty snapshot with the index starting as
`None`, the first `move` call (either direction) sets the index to `0` and
every further `move` call leaves it at `0`; so after any non-empty sequence
of `move` calls the index is `some 0` (not `None`).  This holds for both
the containers and the images page. -/
theorem c3_empty_moves_amended (s : Containers) (ds : List MoveDir)
    (hc : s.containers = []) (hs : s.list_state.selected = none)
    (hne : ds ≠ []) (si : Images) (dsi : List MoveDir)
    (hci : si.images = []) (hsi : si.list_state.selected = none)
    (hnei : dsi ≠ []) :
    (s.applyMoves ds).list_state.selected = some 0 ∧
    (si.applyMoves dsi).list_state.selected = some 0 := by
  constructor
  · cases ds with
    | nil => exact absurd rfl hne
    | cons d ds =>
        show ((s.applyMove d).applyMoves ds).list_state.selected = some 0
        have h1 : (s.applyMove d).containers = [] := by
          rw [Containers.applyMove_containers]; exact hc
        have h2 : (s.applyMove d).list_state.selected = some 0 :=
          Containers.applyMove_none s d hs
        rw [Containers.applyMoves_empty_zero _ ds h1 h2]
        exact h2
  · cases dsi with
    | nil => exact absurd rfl hnei
    | cons d ds =>
        show ((si.applyMove d).applyMoves ds).list_state.selected = some 0
        have h1 : (si.applyMove d).images = [] := by
          rw [Images.applyMove_images]; exact hci
        have h2 : (si.applyMove d).list_state.selected = some 0 :=
          Images.applyMove_noneSel si d hsi
        rw [Images.applyMoves_emptyZero _ ds h1 h2]
        exact h2

/-- Claim C3, witness for the amended theorem on concrete empty pages and a
concrete move sequence. -/
theorem c3_empty_moves_witness :
    contEmptyNone.containers = [] ∧
    contEmptyNone.list_state.selected = none ∧
    imgEmptyNone.images = [] ∧
    imgEmptyNone.list_state.selected = none ∧
    ((contEmptyNone.applyMoves [MoveDir.down, MoveDir.up,
        MoveDir.down]).list_state.selected = some 0 ∧
     (imgEmptyNone.applyMoves [MoveDir.up]).list_state.selected = some 0) :=
  ⟨rfl, rfl, rfl, rfl,
    c3_empty_moves_amended contEmptyNone [MoveDir.down, MoveDir.up,
      MoveDir.down] rfl rfl (by decide) imgEmptyNone [MoveDir.up] rfl rfl
      (by decide)⟩

/-- Claim C4 is right about the spec's intent and wrong about the code
(code bug): on a visible containers page whose snapshot is empty (the
backend returns an empty list), the shift-`G` (jump-to-last) handler
computes `containers.len() - 1 = 0usize - 1`, which underflows — a panic in
debug builds (embedded here as the error result) instead of the specified
no-op — and the `g` (jump-to-first) handler is not a no-op either: it sets
the index to `some 0` on the empty snapshot. -/
theorem c4_jump_empty_code_eval :
    (Containers.update (envConst []) contEmptyNone (Key.Char 'G')).response
      = Except.error "panicked: attempt to subtract with overflow" ∧
    (Containers.update (envConst []) contEmptyNone
        (Key.Char 'g')).state.list_state.selected = some 0 ∧
    contEmptyNone.containers = [] := by decide

/-- Claim C5: if the backend list call fails during `refresh`, refresh
returns the error and leaves the page state — snapshot and selection index
— exactly as it was, for both the containers and the images page. -/
theorem c5_refresh_error_atomic (env : DockerEnv) (k : Nat) (s : Containers)
    (e : String) (h : env.listResults k = Except.error e)
    (envi : ImagesEnv) (ki : Nat) (si : Images) (ei : String)
    (hi : envi.listResults ki = Except.error ei) :
    (s.refresh env k).state = s ∧
    (s.refresh env k).result
      = Except.error ("unable to retrieve list of containers: " ++ e) ∧
    (si.refresh envi ki).state = si ∧
    (si.refresh envi ki).result
      = Except.error ("unable to retrieve list of images: " ++ ei) := by
  simp [Containers.refresh, Images.refresh, h, hi]

/-- Claim C5, witness at a concrete failing backend. -/
theorem c5_refresh_error_atomic_witness :
    envListErr.listResults 0 = Except.error "boom" ∧
    imgEnvErr.listResults 0 = Except.error "boom" ∧
    ((contState3.refresh envListErr 0).state = contState3 ∧
     (contState3.refresh envListErr 0).result
       = Except.error ("unable to retrieve list of containers: " ++ "boom") ∧
     (imgState1.refresh imgEnvErr 0).state = imgState1 ∧
     (imgState1.refresh imgEnvErr 0).result
       = Except.error ("unable to retrieve list of images: " ++ "boom")) :=
  ⟨rfl, rfl,
    c5_refresh_error_atomic envListErr 0 contState3 "boom" rfl imgEnvErr 0
      imgState1 "boom" rfl⟩

/-- Claim C7: the attach action performs exactly the backend effect of the
stop action.  `attach_container` and `stop_container` are equal as
functions of the environment and page state — in particular, on any state
with a selected container they issue the same (stop) backend call, return
the same result, and produce the same successor state. -/
theorem c7_attach_eq_stop (env : DockerEnv) (k : Nat) (s : Containers)
    (c : ContainerSummary) (hsel : s.get_container = some c) :
    s.attach_container env k = s.stop_container env k := rfl

/-- Claim C7, witness on a concrete page with a selected container. -/
theorem c7_attach_eq_stop_witness :
    contStateD.get_container = some cA ∧
    contStateD.attach_container (envConst [cA, cB]) 0
      = contStateD.stop_container (envConst [cA, cB]) 0 :=
  ⟨by decide, c7_attach_eq_stop (envConst [cA, cB]) 0 contStateD cA (by decide)⟩

/-- Claim C8: on a non-empty snapshot with an in-bounds starting index `i`,
`k` repeated `move(+1)` calls put the index at `min (i + k) (len - 1)`: the
index climbs to `len - 1`, never exceeds it, never wraps to 0, and once at
`len - 1` further calls leave it there.  This holds for both pages. -/
theorem c8_increment_converges (s : Containers) (i k : Nat)
    (hsel : s.list_state.selected = some i) (hi : i < s.containers.length)
    (si : Images) (ii ki : Nat)
    (hseli : si.list_state.selected = some ii) (hii : ii < si.images.length) :
    ((Containers.increment_list)^[k] s).list_state.selected
      = some (min (i + k) (s.containers.length - 1)) ∧
    ((Images.increment_list)^[ki] si).list_state.selected
      = some (min (ii + ki) (si.images.length - 1)) :=
  ⟨Containers.iterate_increment_selected s i hsel hi k,
    Images.iterate_incr_selected si ii hseli hii ki⟩

/-- Claim C8, witness: five `move(+1)` calls on a two-element containers
snapshot starting at index 0 end at index 1, and two calls on a
one-element images snapshot stay at index 0. -/
theorem c8_increment_converges_witness :
    contStateD.list_state.selected = some 0 ∧
    0 < contStateD.containers.length ∧
    imgState1.list_state.selected = some 0 ∧
    0 < imgState1.images.length ∧
    (((Containers.increment_list)^[5] contStateD).list_state.selected
        = some (min (0 + 5) (contStateD.containers.length - 1)) ∧
     ((Images.increment_list)^[2] imgState1).list_state.selected
        = some (min (0 + 2) (imgState1.images.length - 1))) :=
  ⟨rfl, by decide, rfl, by decide,
    c8_increment_converges contStateD 0 5 rfl (by decide) imgState1 0 2 rfl
      (by decide)⟩

/-- Claim C9: an event delivered to an invisible page is not consumed and
has no effect at all — the returned state is the input state, no list call
and no mutating backend call is made, for both pages. -/
theorem c9_invisible_noop (env : DockerEnv) (s : Containers) (key : Key)
    (envi : ImagesEnv) (si : Images) (keyi : Key)
    (h : s.visible = false) (hi : si.visible = false) :
    Containers.update env s key
      = ⟨s, 0, [], Except.ok MessageResponse.NotConsumed⟩ ∧
    Images.update envi si keyi
      = ⟨si, 0, [], Except.ok MessageResponse.NotConsumed⟩ := by
  constructor
  · simp [Containers.update, h]
  · simp [Images.update, hi]

/-- Claim C9, witness on concrete invisible pages. -/
theorem c9_invisible_noop_witness :
    contInvisible.visible = false ∧
    imgInvisible.visible = false ∧
    (Containers.update (envConst [cA]) contInvisible (Key.Char 'd')
        = ⟨contInvisible, 0, [], Except.ok MessageResponse.NotConsumed⟩ ∧
     Images.update (imgEnvConst [imgA]) imgInvisible (Key.Ctrl 'd')
        = ⟨imgInvisible, 0, [], Except.ok MessageResponse.NotConsumed⟩) :=
  ⟨rfl, rfl,
    c9_invisible_noop (envConst [cA]) contInvisible (Key.Char 'd')
      (imgEnvConst [imgA]) imgInvisible (Key.Ctrl 'd') rfl rfl⟩

/-- Claim C10: resolving the current selection is total and read-only: when
the index is `None`, or points at or past the end of the snapshot (e.g. a
dangling index left by a shrinking refresh), `get_container` / `get_image`
return the no-selection error outcome (embedded as `none`) — they are pure
functions of the state and never fault. -/
theorem c10_get_total (s : Containers) (si : Images)
    (h : s.list_state.selected = none ∨
      ∃ i, s.list_state.selected = some i ∧ s.containers.length ≤ i)
    (hi : si.list_state.selected = none ∨
      ∃ i, si.list_state.selected = some i ∧ si.images.length ≤ i) :
    s.get_container = none ∧ si.get_image = none := by
  constructor
  · rcases h with h | ⟨i, hsel, hlen⟩
    · simp [Containers.get_container, h]
    · simp [Containers.get_container, hsel, List.get?_eq_none]
      exact hlen
  · rcases hi with h | ⟨i, hsel, hlen⟩
    · simp [Images.get_image, h]
    · simp [Images.get_image, hsel, List.get?_eq_none]
      exact hlen

/-- Claim C10, witness: a containers page with a dangling index (selection
5 over a one-element snapshot) and an images page with no selection both
resolve to the error outcome. -/
theorem c10_get_total_witness :
    (Containers.mk "Containers" true [cA] ⟨some 5⟩
        (ConfirmationModal.new "Delete")).list_state.selected = some 5 ∧
    imgEmptyNone.list_state.selected = none ∧
    ((Containers.mk "Containers" true [cA] ⟨some 5⟩
        (ConfirmationModal.new "Delete")).get_container = none ∧
      imgEmptyNone.get_image = none) :=
  ⟨rfl, rfl,
    c10_get_total
      (Containers.mk "Containers" true [cA] ⟨some 5⟩
        (ConfirmationModal.new "Delete")) imgEmptyNone
      (Or.inr ⟨5, rfl, by decide⟩) (Or.inl rfl)⟩

/-- With a selection at index `i`, resolution reads the snapshot at `i`. -/
theorem Containers.get_container_eq (s : Containers) (i : Nat)
    (hsel : s.list_state.selected = some i) :
    s.get_container = s.containers.get? i := by
  simp [Containers.get_container, hsel]

/-- Whatever the backend answers, `delete_container` on a page whose
current selection resolves to a container with id `cid` issues exactly the
`remove_container cid` backend call. -/
theorem Containers.delete_container_calls (env : DockerEnv) (k : Nat)
    (s : Containers) (c : ContainerSummary) (cid : String)
    (hc : s.get_container = some c) (hid : c.id = some cid) :
    (s.delete_container env k).calls = [BackendCall.removeContainer cid] := by
  cases hrm : env.removeResult cid <;>
    simp [Containers.delete_container, hc, hid, hrm]

/-- Claim C6, counterexample: with the dialog waiting on a two-container
snapshot, answering with the negative key does close the dialog and makes
no mutating backend call, but the snapshot is NOT unchanged by the event —
the handler's unconditional refresh replaces it with the backend's current
(here one-element) list. -/
theorem c6_negative_counterexample :
    contStateW.delete_modal.state = ModalState.Waiting "m" ∧
    contStateW.containers = [cA, cB] ∧
    (Containers.update (envConst [cA]) contStateW
        (Key.Char 'n')).state.delete_modal.state = ModalState.Invisible ∧
    (Containers.update (envConst [cA]) contStateW (Key.Char 'n')).calls
      = [] ∧
    (Containers.update (envConst [cA]) contStateW
        (Key.Char 'n')).state.containers ≠ contStateW.containers := by decide

/-- Claim C6, amended: when the dialog is waiting and the user answers with
the negative key, the dialog returns to the closed state, no mutating
backend call is made, the selection index is unchanged, and the event is
consumed; the snapshot, however, is replaced by the routine refresh that
event handling performs first, so it equals the backend's current list
(which may differ from the pre-event snapshot). -/
theorem c6_negative_amended (env : DockerEnv) (s : Containers) (msg : String)
    (l : List ContainerSummary) (hvis : s.visible = true)
    (hmod : s.delete_modal.state = ModalState.Waiting msg)
    (hlist : env.listResults 0 = Except.ok l) :
    (Containers.update env s (Key.Char 'n')).state.delete_modal.state
      = ModalState.Invisible ∧
    (Containers.update env s (Key.Char 'n')).calls = [] ∧
    (Containers.update env s (Key.Char 'n')).state.list_state
      = s.list_state ∧
    (Containers.update env s (Key.Char 'n')).state.containers = l ∧
    (Containers.update env s (Key.Char 'n')).response
      = Except.ok MessageResponse.Consumed := by
  simp [Containers.update, hvis, Containers.refresh, hlist, hmod,
    ConfirmationModal.update, ConfirmationModal.reset]

/-- Claim C6, witness for the amended theorem at a concrete waiting page. -/
theorem c6_negative_witness :
    contStateW.visible = true ∧
    contStateW.delete_modal.state = ModalState.Waiting "m" ∧
    (envConst [cA]).listResults 0 = Except.ok [cA] ∧
    ((Containers.update (envConst [cA]) contStateW
        (Key.Char 'n')).state.delete_modal.state = ModalState.Invisible ∧
     (Containers.update (envConst [cA]) contStateW (Key.Char 'n')).calls
       = [] ∧
     (Containers.update (envConst [cA]) contStateW
        (Key.Char 'n')).state.list_state = contStateW.list_state ∧
     (Containers.update (envConst [cA]) contStateW
        (Key.Char 'n')).state.containers = [cA] ∧
     (Containers.update (envConst [cA]) contStateW (Key.Char 'n')).response
       = Except.ok MessageResponse.Consumed) :=
  ⟨rfl, rfl, rfl,
    c6_negative_amended (envConst [cA]) contStateW "m" [cA] rfl rfl rfl⟩

/-- Claim C2, counterexample (containers page): pressing delete with `c1`
selected opens the dialog with a prompt naming `c1` — but only the prompt
text is captured.  When the backend's list reorders to `[c2, c1]` before
the affirmative answer, the confirmed delete re-resolves the selection in
the refreshed snapshot and removes `c2`, not the `c1` shown at
prompt-open time. -/
theorem c2_capture_counterexample :
    (Containers.update (envConst [cA, cB]) contStateD
        (Key.Char 'd')).state.delete_modal.state
      = ModalState.Waiting
          "Are you sure you wish to delete container c1, running img1?" ∧
    (Containers.update (envConst [cB, cA])
        (Containers.update (envConst [cA, cB]) contStateD
          (Key.Char 'd')).state (Key.Char 'y')).calls
      = [BackendCall.removeContainer "c2"] ∧
    [BackendCall.removeContainer "c2"] ≠ [BackendCall.removeContainer "c1"]
    := by decide

/-- Claim C2, amended: the two pages differ.  On the containers page the
pending action captures only the prompt text; when the dialog is waiting
and the affirmative key arrives, the remove call targets the identifier of
the record selected in the just-refreshed snapshot at confirmation time
(so a refresh or reorder between prompt-open and confirmation changes the
target).  On the images page the pending action does capture the selected
image at key-press time inside the `DeleteImage` callback. -/
theorem c2_delete_target_amended (env : DockerEnv) (k : Nat) (s : Containers)
    (c : ContainerSummary) (cid : String) (simg : Images) (img : DockerImage)
    (hc : s.get_container = some c) (hid : c.id = some cid)
    (himg : simg.get_image = some img) :
    (s.delete_container env k).calls = [BackendCall.removeContainer cid] ∧
    ∃ s2, Images.delete_image simg = Except.ok s2 ∧
      ∃ m, s2.modal = some m ∧ m.callback = some img := by
  constructor
  · exact Containers.delete_container_calls env k s c cid hc hid
  · simp [Images.delete_image, himg, ImagesConfirmationModal.new,
      ImagesConfirmationModal.initialise]

/-- Claim C2, witness for the amended theorem on concrete pages. -/
theorem c2_delete_target_witness :
    contStateD.get_container = some cA ∧
    cA.id = some "c1" ∧
    imgState1.get_image = some imgA ∧
    ((contStateD.delete_container (envConst [cA, cB]) 0).calls
        = [BackendCall.removeContainer "c1"] ∧
     ∃ s2, Images.delete_image imgState1 = Except.ok s2 ∧
       ∃ m, s2.modal = some m ∧ m.callback = some imgA) :=
  ⟨by decide, rfl, by decide,
    c2_delete_target_amended (envConst [cA, cB]) 0 contStateD cA "c1"
      imgState1 imgA (by decide) rfl (by decide)⟩

end Ducker
